import Mathlib

/-!
Verification of the Zenview Eyewear builder backend (`main.py`, `schemas.py`).

The repository stores per-project site configuration as MongoDB documents and
renders a project into a static HTML/CSS/JS bundle via the pure function
`build_export_bundle`. Handlers read raw documents (Python dicts), so every
field access in the builder goes through `dict.get`; we model documents as
structures of `Option`-typed fields and `dict.get` as `Option.getD` / direct
`Option` matching. Python truthiness (`x or default`) and f-string rendering
of `None` are modelled explicitly.
-/

namespace Zenview

/-! ## Python value rendering -/

/-- Fractional digits of `num/den` (most significant first), stopping at a zero
remainder or after `fuel` digits; used to render float values in decimal. -/
def fracDigitsAux : Nat → Nat → Nat → List Char
  | 0, _, _ => []
  | fuel+1, num, den =>
    if num = 0 then []
    else Nat.digitChar (num * 10 / den) :: fracDigitsAux fuel (num * 10 % den) den

/-- Decimal rendering of a float value, modelling Python `str()` on floats whose
shortest round-trip representation is a terminating decimal (which covers the
price values of this repository): integer part, a dot, and the fractional
digits, with `.0` when the value is integral, e.g. `420.0` renders `"420.0"`. -/
def floatRepr (q : ℚ) : String :=
  let sign := if q < 0 then "-" else ""
  let n := q.num.natAbs
  let d := q.den
  let intPart := toString (n / d)
  let frac := fracDigitsAux 17 (n % d) d
  sign ++ intPart ++ "." ++ (if frac.isEmpty then "0" else String.mk frac)

/-- Python `x or default` on an optional string field: `None` and the empty
string are falsy, any other string is returned unchanged. -/
def pyOr : Option String → String → String
  | none, d => d
  | some s, d => if s = "" then d else s

/-- Python f-string interpolation of a possibly missing string field:
`None` renders as the literal text `None`. -/
def pyStr : Option String → String
  | none => "None"
  | some s => s

/-- Python f-string interpolation of a possibly missing float field. -/
def pyFloat : Option ℚ → String
  | none => "None"
  | some q => floatRepr q

/-! ## Document model

One structure per nested dict of a stored `project` document, with every
field optional, mirroring access by `dict.get` in `build_export_bundle`. -/

structure ProductDoc where
  name : Option String := none
  price : Option ℚ := none
  description : Option String := none
  image : Option String := none
  gallery : Option (List String) := none
deriving DecidableEq

structure ThemeDoc where
  accent : Option String := none
  background : Option String := none
  text : Option String := none
  serif : Option String := none
  sans : Option String := none
deriving DecidableEq

structure ImagesDoc where
  hero : Option String := none
  lifestyle : Option String := none
  closeup : Option String := none
  flatlay : Option String := none
deriving DecidableEq

structure FaqDoc where
  q : Option String := none
  a : Option String := none
deriving DecidableEq

structure SectionsDoc where
  hero_title : Option String := none
  hero_subtitle : Option String := none
  hero_cta : Option String := none
  story_title : Option String := none
  story_body : Option String := none
  craft_title : Option String := none
  craft_points : Option (List String) := none
  lookbook_title : Option String := none
  testimonials : Option (List String) := none
  faqs : Option (List FaqDoc) := none
deriving DecidableEq

structure ProjectDoc where
  name : Option String := none
  description : Option String := none
  products : Option (List ProductDoc) := none
  theme : Option ThemeDoc := none
  sections : Option SectionsDoc := none
  images : Option ImagesDoc := none
  exported_html : Option String := none
  published_path : Option String := none
deriving DecidableEq

/-- `project.get("theme", {})`. -/
def themeOf (project : ProjectDoc) : ThemeDoc := project.theme.getD {}

/-- `project.get("sections", {})`. -/
def sectionsOf (project : ProjectDoc) : SectionsDoc := project.sections.getD {}

/-- `project.get("products", [])`. -/
def productsOf (project : ProjectDoc) : List ProductDoc := project.products.getD []

/-- `project.get("images", {})`. -/
def imagesOf (project : ProjectDoc) : ImagesDoc := project.images.getD {}

/-- `accent = theme.get("accent", "#C2A676")`. -/
def accentOf (project : ProjectDoc) : String := (themeOf project).accent.getD "#C2A676"

/-! ## The export bundle builder (`build_export_bundle`, main.py lines 150-287)

The HTML template is one Python f-string; we transcribe it as the literal
segments `hL0`-`hL17` interleaved with the interpolated slots, in source
order. Literal braces of the CSS/JS are written with their character codes. -/

/-- One product card of the collections grid (the comprehension on main.py
line 193). The doubled backslash before each inner quote is literal: the
Python source writes the escape sequence into the produced HTML. -/
def cardHtml (p : ProductDoc) : String :=
  "<div class='card'><div class='img' style=\\\"background-image:url('" ++
    pyOr p.image "https://placehold.co/800x600?text=Frame" ++
    "')\\\"></div><div class='info'><div class='name'>" ++ pyStr p.name ++
    "</div><div class='price'>$ " ++ pyFloat p.price ++ "</div></div></div>"

/-- One craft feature row (the comprehension on main.py line 208). -/
def featHtml (pt : String) : String :=
  "<div class='feat'><div class='dot'></div><p>" ++ pt ++ "</p></div>"

/-- One testimonial blockquote (the comprehension on main.py line 220),
wrapped in curly quotation marks U+201C / U+201D. -/
def quoteHtml (t : String) : String :=
  "<blockquote>“" ++ t ++ "”</blockquote>"

/-- One FAQ entry (the comprehension on main.py line 223). -/
def faqEntryHtml (f : FaqDoc) : String :=
  "<details><summary>" ++ pyStr f.q ++ "</summary><p>" ++ pyStr f.a ++ "</p></details>"

def hL0 : String := "<!doctype html>\n<html lang=\"en\">\n<head>\n<meta charset=\"utf-8\" />\n<meta name=\"viewport\" content=\"width=device-width, initial-scale=1\" />\n<title>Zenview Eyewear</title>\n<link rel=\"preconnect\" href=\"https://fonts.googleapis.com\">\n<link rel=\"preconnect\" href=\"https://fonts.gstatic.com\" crossorigin>\n<link href=\"https://fonts.googleapis.com/css2?family=Playfair+Display:wght@400;500;600&family=Inter:wght@300;400;500;600&display=swap\" rel=\"stylesheet\">\n<link rel=\"stylesheet\" href=\"./styles.css\" />\n</head>\n<body>\n<header class=\"nav\">\n  <div class=\"nav-inner\">\n    <div class=\"brand\">Zenview</div>\n    <nav>\n      <a href=\"#collections\">Collections</a>\n      <a href=\"#story\">Story</a>\n      <a href=\"#craft\">Craft</a>\n      <a href=\"#lookbook\">Lookbook</a>\n      <a href=\"#faq\">FAQ</a>\n    </nav>\n  </div>\n</header>\n<section class=\"hero\">\n  <div class=\"hero-content\">\n    <h1>"

def hL1 : String := "</h1>\n    <p class=\"sub\">"

def hL2 : String := "</p>\n    <a class=\"cta\" href=\"#collections\">"

def hL3 : String := "</a>\n  </div>\n  <div class=\"hero-media\" style=\"background-image:url('"

def hL4 : String := "')\"></div>\n</section>\n<section id=\"collections\" class=\"collections\">\n  <h2>Signature Collection</h2>\n  <div class=\"grid\">\n    "

def hL5 : String := "\n  </div>\n</section>\n<section id=\"story\" class=\"story\">\n  <div class=\"split\">\n    <div class=\"image\" style=\"background-image:url('"

def hL6 : String := "')\"></div>\n    <div class=\"copy\">\n      <h3>"

def hL7 : String := "</h3>\n      <p>"

def hL8 : String := "</p>\n    </div>\n  </div>\n</section>\n<section id=\"craft\" class=\"craft\">\n  <h2>"

def hL9 : String := "</h2>\n  <div class=\"features\">\n    "

def hL10 : String := "\n  </div>\n</section>\n<section id=\"lookbook\" class=\"lookbook\">\n  <h2>"

def hL11 : String := "</h2>\n  <div class=\"masonry\">\n    <img src=\""

def hL12 : String := "\" />\n    <img src=\""

def hL13 : String := "\" />\n    <img src=\""

def hL14 : String := "\" />\n  </div>\n</section>\n<section id=\"testimonials\" class=\"testimonials\">\n  "

def hL15 : String := "\n</section>\n<section id=\"faq\" class=\"faq\">\n  "

def hL16 : String := "\n</section>\n<footer class=\"footer\">\n  <div class=\"inner\">\n    <div class=\"blurb\">Zenview Eyewear â€” "

def hL17 : String := "</div>\n    <form class=\"newsletter\"><input type=\"email\" placeholder=\"Email\"/><button>Join</button></form>\n  </div>\n</footer>\n<script src=\"./main.js\"></script>\n</body>\n</html>"

/-- The HTML of the bundle as the template's literal segments interleaved
with the interpolated slots, in source order (main.py lines 158-233). -/
def htmlSegments (project : ProjectDoc) : List String :=
  let sections := sectionsOf project
  let products := productsOf project
  let images := imagesOf project
  [hL0, sections.hero_title.getD "Zenview Eyewear",
   hL1, sections.hero_subtitle.getD "See Without Noise",
   hL2, sections.hero_cta.getD "Shop the Collection",
   hL3, pyOr images.hero "https://placehold.co/1600x900?text=Zenview+Hero",
   hL4, String.join (products.map cardHtml),
   hL5, pyOr images.lifestyle "https://placehold.co/1200x1400?text=Lifestyle",
   hL6, pyStr sections.story_title,
   hL7, pyStr sections.story_body,
   hL8, pyStr sections.craft_title,
   hL9, String.join ((sections.craft_points.getD []).map featHtml),
   hL10, pyStr sections.lookbook_title,
   hL11, pyOr images.lifestyle "https://placehold.co/800x1000",
   hL12, pyOr images.flatlay "https://placehold.co/1000x800",
   hL13, pyOr images.closeup "https://placehold.co/900x900",
   hL14, String.join ((sections.testimonials.getD []).map quoteHtml),
   hL15, String.join ((sections.faqs.getD []).map faqEntryHtml),
   hL16, pyStr sections.hero_subtitle,
   hL17]

/-- The `html` artifact of `build_export_bundle`. -/
def buildHtml (project : ProjectDoc) : String :=
  String.join (htmlSegments project)

/-- The fixed remainder of the stylesheet after the injected accent value
(main.py lines 235-277, with `\x7b\x7b` / `\x7d\x7d` of the f-string undoubled). -/
def cssTail : String :=
  ";--bg:#FAFAF8;--text:#111;--muted:#9A8C71\x7d\n" ++
  "*\x7bbox-sizing:border-box\x7dbody\x7bmargin:0;background:var(--bg);color:var(--text);font-family:Inter,system-ui;-webkit-font-smoothing:antialiased;\x7d\n" ++
  ".nav\x7bposition:sticky;top:0;background:rgba(250,250,248,.7);backdrop-filter:saturate(180%) blur(16px);border-bottom:1px solid rgba(0,0,0,.06);z-index:10\x7d\n" ++
  ".nav-inner\x7bmax-width:1200px;margin:0 auto;display:flex;justify-content:space-between;align-items:center;padding:16px 24px\x7d\n" ++
  ".nav a\x7bcolor:#333;text-decoration:none;margin-left:20px;font-size:14px\x7d\n" ++
  ".brand\x7bfont-family:'Playfair Display',serif;font-size:20px;letter-spacing:.05em\x7d\n" ++
  ".hero\x7bdisplay:grid;grid-template-columns:1.1fr .9fr;min-height:80vh;align-items:stretch\x7d\n" ++
  ".hero-content\x7bpadding:12vh 8vw\x7d\n" ++
  ".hero h1\x7bfont-family:'Playfair Display',serif;font-size:64px;line-height:1.02;margin:0 0 12px\x7d\n" ++
  ".hero .sub\x7bopacity:.7;font-size:18px;margin-bottom:24px\x7d\n" ++
  ".cta\x7bdisplay:inline-block;background:var(--text);color:#fff;padding:14px 22px;border-radius:999px;box-shadow:0 8px 24px rgba(0,0,0,.08);transition:transform .3s ease, box-shadow .3s ease\x7d\n" ++
  ".cta:hover\x7btransform:translateY(-2px);box-shadow:0 12px 28px rgba(0,0,0,.12)\x7d\n" ++
  ".hero-media\x7bbackground-size:cover;background-position:center;border-left:1px solid rgba(0,0,0,.06)\x7d\n" ++
  ".collections\x7bmax-width:1200px;margin:120px auto;padding:0 24px\x7d\n" ++
  ".collections h2\x7bfont-family:'Playfair Display',serif;font-size:36px;margin:0 0 24px\x7d\n" ++
  ".grid\x7bdisplay:grid;gap:24px;grid-template-columns:repeat(auto-fill,minmax(260px,1fr))\x7d\n" ++
  ".card\x7bbackground:#fff;border:1px solid rgba(0,0,0,.06);border-radius:18px;overflow:hidden;box-shadow:0 10px 40px rgba(0,0,0,.06);transform:translateY(0);transition:transform .35s ease\x7d\n" ++
  ".card:hover\x7btransform:translateY(-6px)\x7d\n" ++
  ".card .img\x7bpadding-top:66%;background-size:cover;background-position:center\x7d\n" ++
  ".card .info\x7bdisplay:flex;justify-content:space-between;align-items:center;padding:16px 14px\x7d\n" ++
  ".card .name\x7bfont-weight:500\x7d\n" ++
  ".card .price\x7bcolor:var(--muted)\x7d\n" ++
  ".story .split\x7bdisplay:grid;grid-template-columns:1fr 1fr;gap:40px;max-width:1200px;margin:100px auto;padding:0 24px;align-items:center\x7d\n" ++
  ".story .image\x7bbackground-size:cover;background-position:center;border-radius:22px;height:560px;box-shadow:0 20px 60px rgba(0,0,0,.08)\x7d\n" ++
  ".story h3\x7bfont-family:'Playfair Display',serif;font-size:34px;margin:0 0 12px\x7d\n" ++
  ".craft\x7bmax-width:1200px;margin:120px auto;padding:0 24px\x7d\n" ++
  ".craft h2\x7bfont-family:'Playfair Display',serif;font-size:32px;margin:0 0 18px\x7d\n" ++
  ".features\x7bdisplay:grid;grid-template-columns:repeat(auto-fit,minmax(240px,1fr));gap:18px\x7d\n" ++
  ".feat\x7bdisplay:flex;gap:10px;align-items:flex-start;background:#fff;border:1px solid rgba(0,0,0,.06);border-radius:14px;padding:16px 18px\x7d\n" ++
  ".dot\x7bwidth:8px;height:8px;border-radius:50%;background:var(--accent);margin-top:9px\x7d\n" ++
  ".lookbook\x7bmax-width:1200px;margin:120px auto;padding:0 24px\x7d\n" ++
  ".masonry\x7bcolumns:3;column-gap:16px\x7d\n" ++
  ".masonry img\x7bwidth:100%;margin:0 0 16px;border-radius:16px;box-shadow:0 14px 40px rgba(0,0,0,.08)\x7d\n" ++
  ".testimonials\x7bmax-width:900px;margin:120px auto;padding:0 24px;display:grid;gap:20px\x7d\n" ++
  "blockquote\x7bfont-family:'Playfair Display',serif;font-size:20px;line-height:1.6;margin:0;padding:0 0 0 16px;border-left:2px solid var(--accent);color:#333\x7d\n" ++
  ".faq\x7bmax-width:900px;margin:120px auto;padding:0 24px;display:grid;gap:10px\x7d\n" ++
  "details\x7bbackground:#fff;border:1px solid rgba(0,0,0,.06);border-radius:14px;padding:14px 16px\x7d\n" ++
  "summary\x7bcursor:pointer;font-weight:500\x7d\n" ++
  ".footer\x7bmargin-top:140px;border-top:1px solid rgba(0,0,0,.06);padding:40px 0;background:rgba(255,255,255,.7);backdrop-filter:blur(10px)\x7d\n" ++
  ".footer .inner\x7bmax-width:1200px;margin:0 auto;padding:0 24px;display:flex;justify-content:space-between;align-items:center;gap:20px;flex-wrap:wrap\x7d\n" ++
  ".newsletter input\x7bborder:1px solid rgba(0,0,0,.12);border-radius:999px;padding:12px 16px;margin-right:8px\x7d\n" ++
  ".newsletter button\x7bbackground:var(--text);color:#fff;border:none;border-radius:999px;padding:12px 18px;cursor:pointer\x7d\n"

/-- The `css` artifact: the accent colour injected into the `--accent` custom
property at the head of an otherwise fixed stylesheet. -/
def buildCss (project : ProjectDoc) : String :=
  ":root\x7b--accent:" ++ accentOf project ++ cssTail

/-- The `js` artifact, a fixed script (main.py lines 279-285). -/
def buildJs : String :=
  "\n// Smooth anchor scrolling\nconst links = document.querySelectorAll('a[href^=\"#\"]');\nlinks.forEach(l=>l.addEventListener('click',e=>\x7be.preventDefault();document.querySelector(l.getAttribute('href')).scrollIntoView(\x7bbehavior:'smooth'\x7d)\x7d))\n// Parallax hero\nwindow.addEventListener('scroll',()=>\x7bconst y=window.scrollY;const media=document.querySelector('.hero-media');if(media)\x7bmedia.style.transform=`translateY($\x7by*0.08\x7dpx)`\x7d\x7d)\n"

/-- `build_export_bundle(project)`: the `(html, css, js)` triple. -/
def build_export_bundle (project : ProjectDoc) : String × String × String :=
  (buildHtml project, buildCss project, buildJs)

/-! ## The HTTP layer and the document store (main.py lines 61-146)

The store is the `project` collection: a list of `(_id, document)` pairs.
Every handler body runs inside `try: ... except Exception as e:
raise HTTPException(status_code=500, detail=str(e))`; since FastAPI's
`HTTPException` is itself a subclass of `Exception`, that broad clause also
catches the `HTTPException(404)` / `HTTPException(400)` raised in the body.
We model a handler body as an `Except PyExc` computation and the wrapper as
the match that turns any raised exception into a 500 response. -/

/-- A Python exception crossing the handler boundary: FastAPI's
`HTTPException` (with its status code and detail) or any other exception. -/
inductive PyExc where
  | http (status : Nat) (detail : String)
  | other (msg : String)
deriving DecidableEq

/-- The stored `project` collection. -/
abbrev Store := List (String × ProjectDoc)

/-- `ObjectId(s)` succeeds exactly on a 24-character hex string. -/
def isValidObjectId (s : String) : Bool :=
  s.length == 24 && s.data.all fun c =>
    c.isDigit || ('a' ≤ c && c ≤ 'f') || ('A' ≤ c && c ≤ 'F')

/-- `db[collection].find_one({"_id": ObjectId(id)})`. -/
def findOne (store : Store) (oid : String) : Option ProjectDoc :=
  (List.find? (fun e => e.1 == oid) store).map (·.2)

/-- The try-block body of `GET /api/projects/\x7bproject_id\x7d`
(main.py lines 84-90): a bad id makes `ObjectId` raise, a missing document
raises `HTTPException(404, "Project not found")`. -/
def get_project_try (store : Store) (project_id : String) : Except PyExc ProjectDoc :=
  if ¬ isValidObjectId project_id then
    .error (.other "ObjectId error")
  else
    match findOne store project_id with
    | none => .error (.http 404 "Project not found")
    | some doc => .ok doc

/-- The full `get_project` handler: the status code it answers. The broad
`except Exception` turns every exception raised by the body — the 404
included — into a 500 response. -/
def get_project (store : Store) (project_id : String) : Nat :=
  match get_project_try store project_id with
  | .ok _ => 200
  | .error _ => 500

/-- The try-block body of `GET /api/projects/\x7bproject_id\x7d/export.zip`
(main.py lines 127-144): on success it builds the bundle. -/
def export_project_zip_try (store : Store) (project_id : String) :
    Except PyExc (String × String × String) :=
  if ¬ isValidObjectId project_id then
    .error (.other "ObjectId error")
  else
    match findOne store project_id with
    | none => .error (.http 404 "Project not found")
    | some doc => .ok (build_export_bundle doc)

/-- The full `export_project_zip` handler: the status code it answers. -/
def export_project_zip (store : Store) (project_id : String) : Nat :=
  match export_project_zip_try store project_id with
  | .ok _ => 200
  | .error _ => 500

/-- The try-block body of `PUT /api/projects/\x7bproject_id\x7d`
(main.py lines 96-103): mismatched ids raise `HTTPException(400)`;
otherwise `update_one` replaces the matching document's fields. -/
def update_project_try (store : Store) (project_id payload_id : String)
    (proj : ProjectDoc) : Except PyExc Store :=
  if project_id ≠ payload_id then
    .error (.http 400 "Mismatched ids")
  else if ¬ isValidObjectId project_id then
    .error (.other "ObjectId error")
  else
    .ok (store.map fun e => if e.1 == project_id then (e.1, proj) else e)

/-- The full `update_project` handler: status code and resulting store. Any
exception raised by the body — the 400 included — becomes a 500 response and
leaves the store untouched. -/
def update_project (store : Store) (project_id payload_id : String)
    (proj : ProjectDoc) : Nat × Store :=
  match update_project_try store project_id payload_id proj with
  | .ok store' => (200, store')
  | .error _ => (500, store)

/-- Pydantic validation of an embedded `Product`, modelling
`name: str = Field(...)` and `price: float = Field(..., ge=0)` of
schemas.py: a product passes only with a name and a non-negative price. -/
def productAccepted (p : ProductDoc) : Bool :=
  p.name.isSome && match p.price with
    | some q => decide (0 ≤ q)
    | none => false

/-- Pydantic validation of the `Project` payload, restricted to the product
constraints (all other `Project` fields carry defaults). -/
def projectAccepted (p : ProjectDoc) : Bool :=
  (p.products.getD []).all productAccepted

/-- `POST /api/projects`: FastAPI validates the body against
`CreateProjectRequest` before the handler runs, answering 422 when
validation fails; an accepted project is inserted via `create_document`. -/
def create_project (store : Store) (newId : String) (payload : ProjectDoc) :
    Nat × Store :=
  if projectAccepted payload then (200, store ++ [(newId, payload)])
  else (422, store)

/-- `PUT /api/projects/\x7bproject_id\x7d` with body validation: FastAPI
validates the `UpdateProjectRequest` body before `update_project` runs. -/
def update_project_endpoint (store : Store) (project_id payload_id : String)
    (payload : ProjectDoc) : Nat × Store :=
  if projectAccepted payload then update_project store project_id payload_id payload
  else (422, store)

/-! ## The price invariant of the stored state -/

/-- Every product embedded in the document has a non-negative price. -/
def priceInv (d : ProjectDoc) : Prop :=
  ∀ prod ∈ d.products.getD [], ∀ q : ℚ, prod.price = some q → 0 ≤ q

/-- The price invariant over the whole stored collection. -/
def storeInv (store : Store) : Prop := ∀ e ∈ store, priceInv e.2

/-! ## Concrete documents used as inputs of witnesses and counterexamples -/

/-- A project whose `sections` dict is present but holds none of the copy
fields: every `sections.get(...)` in the builder sees a missing key. -/
def projC1 : ProjectDoc := { sections := some {} }

/-- A catalog product priced 420.0. -/
def prod420 : ProductDoc := { name := some "Aero 01", price := some 420 }

/-- A project whose catalog is the single product priced 420.0. -/
def proj420 : ProjectDoc := { products := some [prod420] }

/-- Theme with accent `#ABCDEF` on a white background. -/
def themeA : ThemeDoc := { accent := some "#ABCDEF", background := some "#FFFFFF" }

/-- Theme with accent `#ABCDEF` on a black background. -/
def themeB : ThemeDoc := { accent := some "#ABCDEF", background := some "#000000" }

/-- Project carrying `themeA`. -/
def projA : ProjectDoc := { theme := some themeA }

/-- Project carrying `themeB`: differs from `projA` only in a non-accent
theme field. -/
def projB : ProjectDoc := { theme := some themeB }

/-- A stored document. -/
def storedDoc : ProjectDoc := { name := some "Zenview Eyewear" }

/-- An update payload. -/
def payloadDoc : ProjectDoc := { name := some "Updated" }

/-- A schema-valid create/update payload with one product of price 420. -/
def payloadW : ProjectDoc := { products := some [prod420] }

/-- Two projects equal in the four fields the builder reads, different in
`name`. -/
def projName1 : ProjectDoc := { name := some "Store A" }

/-- See `projName1`. -/
def projName2 : ProjectDoc := { name := some "Store B" }

/-! ## Decompositions of the rendered HTML around single template slots -/

/-- Everything of the rendered page before the collections grid. -/
def htmlBeforeGrid (project : ProjectDoc) : String :=
  String.join ((htmlSegments project).take 9)

/-- Everything of the rendered page after the collections grid. -/
def htmlAfterGrid (project : ProjectDoc) : String :=
  String.join ((htmlSegments project).drop 10)

/-- Everything of the rendered page before the `story_title` slot. -/
def htmlBeforeStoryTitle (project : ProjectDoc) : String :=
  String.join ((htmlSegments project).take 13)

/-- Everything of the rendered page after the `story_title` slot. -/
def htmlAfterStoryTitle (project : ProjectDoc) : String :=
  String.join ((htmlSegments project).drop 14)

/-- Everything of the rendered page before the `hero_title` slot. -/
def htmlBeforeHeroTitle : String :=
  String.join [hL0]

/-- Everything of the rendered page after the `hero_title` slot. -/
def htmlAfterHeroTitle (project : ProjectDoc) : String :=
  String.join ((htmlSegments project).drop 2)

/-- Everything of the rendered page before the testimonials slot. -/
def htmlBeforeTestimonials (project : ProjectDoc) : String :=
  String.join ((htmlSegments project).take 29)

/-- Everything of the rendered page after the testimonials slot. -/
def htmlAfterTestimonials (project : ProjectDoc) : String :=
  String.join ((htmlSegments project).drop 30)

/-- The rendered page splits at slot `k` of the template (the `k`-th entry
of `htmlSegments`) around exactly the text `v`: the page is the segments
before the slot, then `v`, then the segments after it. -/
def slotSplit (project : ProjectDoc) (k : Nat) (v : String) : Prop :=
  buildHtml project =
    String.join ((htmlSegments project).take k) ++
      (v ++ String.join ((htmlSegments project).drop (k + 1)))

/-! ## String toolkit and slot-extraction lemmas -/

theorem str_append_assoc (a b c : String) : a ++ b ++ c = a ++ (b ++ c) := by
  apply String.ext
  simp [String.data_append]

theorem join_extract (l₁ l₂ : List String) (m : String) :
    String.join (l₁ ++ m :: l₂) = String.join l₁ ++ (m ++ String.join l₂) := by
  apply String.ext
  simp [String.data_join, String.data_append]

theorem buildHtml_grid_split (project : ProjectDoc) :
    buildHtml project =
      htmlBeforeGrid project ++
        (String.join ((productsOf project).map cardHtml) ++ htmlAfterGrid project) :=
  join_extract ((htmlSegments project).take 9) ((htmlSegments project).drop 10) _

theorem buildHtml_story_title_split (project : ProjectDoc) :
    buildHtml project =
      htmlBeforeStoryTitle project ++
        (pyStr (sectionsOf project).story_title ++ htmlAfterStoryTitle project) :=
  join_extract ((htmlSegments project).take 13) ((htmlSegments project).drop 14) _

theorem buildHtml_hero_title_split (project : ProjectDoc) :
    buildHtml project =
      htmlBeforeHeroTitle ++
        ((sectionsOf project).hero_title.getD "Zenview Eyewear" ++
          htmlAfterHeroTitle project) :=
  join_extract [hL0] ((htmlSegments project).drop 2) _

theorem buildHtml_testimonials_split (project : ProjectDoc) :
    buildHtml project =
      htmlBeforeTestimonials project ++
        (String.join (((sectionsOf project).testimonials.getD []).map quoteHtml) ++
          htmlAfterTestimonials project) :=
  join_extract ((htmlSegments project).take 29) ((htmlSegments project).drop 30) _

theorem slot1_split (p : ProjectDoc) :
    slotSplit p 1 ((sectionsOf p).hero_title.getD "Zenview Eyewear") :=
  join_extract ((htmlSegments p).take 1) ((htmlSegments p).drop 2) _

theorem slot3_split (p : ProjectDoc) :
    slotSplit p 3 ((sectionsOf p).hero_subtitle.getD "See Without Noise") :=
  join_extract ((htmlSegments p).take 3) ((htmlSegments p).drop 4) _

theorem slot5_split (p : ProjectDoc) :
    slotSplit p 5 ((sectionsOf p).hero_cta.getD "Shop the Collection") :=
  join_extract ((htmlSegments p).take 5) ((htmlSegments p).drop 6) _

theorem slot7_split (p : ProjectDoc) :
    slotSplit p 7 (pyOr (imagesOf p).hero "https://placehold.co/1600x900?text=Zenview+Hero") :=
  join_extract ((htmlSegments p).take 7) ((htmlSegments p).drop 8) _

theorem slot11_split (p : ProjectDoc) :
    slotSplit p 11 (pyOr (imagesOf p).lifestyle "https://placehold.co/1200x1400?text=Lifestyle") :=
  join_extract ((htmlSegments p).take 11) ((htmlSegments p).drop 12) _

theorem slot13_split (p : ProjectDoc) :
    slotSplit p 13 (pyStr (sectionsOf p).story_title) :=
  join_extract ((htmlSegments p).take 13) ((htmlSegments p).drop 14) _

theorem slot15_split (p : ProjectDoc) :
    slotSplit p 15 (pyStr (sectionsOf p).story_body) :=
  join_extract ((htmlSegments p).take 15) ((htmlSegments p).drop 16) _

theorem slot17_split (p : ProjectDoc) :
    slotSplit p 17 (pyStr (sectionsOf p).craft_title) :=
  join_extract ((htmlSegments p).take 17) ((htmlSegments p).drop 18) _

theorem slot21_split (p : ProjectDoc) :
    slotSplit p 21 (pyStr (sectionsOf p).lookbook_title) :=
  join_extract ((htmlSegments p).take 21) ((htmlSegments p).drop 22) _

theorem slot23_split (p : ProjectDoc) :
    slotSplit p 23 (pyOr (imagesOf p).lifestyle "https://placehold.co/800x1000") :=
  join_extract ((htmlSegments p).take 23) ((htmlSegments p).drop 24) _

theorem slot25_split (p : ProjectDoc) :
    slotSplit p 25 (pyOr (imagesOf p).flatlay "https://placehold.co/1000x800") :=
  join_extract ((htmlSegments p).take 25) ((htmlSegments p).drop 26) _

theorem slot27_split (p : ProjectDoc) :
    slotSplit p 27 (pyOr (imagesOf p).closeup "https://placehold.co/900x900") :=
  join_extract ((htmlSegments p).take 27) ((htmlSegments p).drop 28) _

theorem slot33_split (p : ProjectDoc) :
    slotSplit p 33 (pyStr (sectionsOf p).hero_subtitle) :=
  join_extract ((htmlSegments p).take 33) ((htmlSegments p).drop 34) _

/-! ## Claims -/

/-- C1 (counterexample): for the project `projC1`, whose `sections` dict
lacks `story_title`, `build_export_bundle` renders the literal text `None`
(Python's rendering of the null value) inside the story heading — not a
documented placeholder value. This refutes the claim that every missing
optional field degrades to a documented placeholder, never to an empty or
null rendering. -/
theorem c1_missing_story_title_renders_none :
    (sectionsOf projC1).story_title = none
    ∧ buildHtml projC1 =
        htmlBeforeStoryTitle projC1 ++ ("None" ++ htmlAfterStoryTitle projC1) :=
  ⟨rfl, buildHtml_story_title_split projC1⟩

/-- C1 (amended): `build_export_bundle` never fails when optional fields
are missing; the fields read with a documented fallback degrade to it —
`hero_title` to `Zenview Eyewear` (slot 1), `hero_subtitle` to
`See Without Noise` (slot 3), `hero_cta` to `Shop the Collection`
(slot 5), and the image slots to the fixed placeholder URLs: hero
(slot 7), the story and lookbook `lifestyle` slots (11 and 23), `flatlay`
(25) and `closeup` (27) — but the copy fields read without a default
render the literal text `None` instead of a placeholder: `story_title`
(slot 13), `story_body` (15), `craft_title` (17), `lookbook_title` (21)
and the footer's `hero_subtitle` (33). -/
theorem c1_amended_missing_fields (p : ProjectDoc)
    (h1 : (sectionsOf p).hero_title = none)
    (h2 : (sectionsOf p).hero_subtitle = none)
    (h3 : (sectionsOf p).hero_cta = none)
    (h4 : (sectionsOf p).story_title = none)
    (h5 : (sectionsOf p).story_body = none)
    (h6 : (sectionsOf p).craft_title = none)
    (h7 : (sectionsOf p).lookbook_title = none)
    (hi1 : (imagesOf p).hero = none)
    (hi2 : (imagesOf p).lifestyle = none)
    (hi3 : (imagesOf p).flatlay = none)
    (hi4 : (imagesOf p).closeup = none) :
    slotSplit p 1 "Zenview Eyewear"
    ∧ slotSplit p 3 "See Without Noise"
    ∧ slotSplit p 5 "Shop the Collection"
    ∧ slotSplit p 7 "https://placehold.co/1600x900?text=Zenview+Hero"
    ∧ slotSplit p 11 "https://placehold.co/1200x1400?text=Lifestyle"
    ∧ slotSplit p 13 "None"
    ∧ slotSplit p 15 "None"
    ∧ slotSplit p 17 "None"
    ∧ slotSplit p 21 "None"
    ∧ slotSplit p 23 "https://placehold.co/800x1000"
    ∧ slotSplit p 25 "https://placehold.co/1000x800"
    ∧ slotSplit p 27 "https://placehold.co/900x900"
    ∧ slotSplit p 33 "None" := by
  refine ⟨?_, ?_, ?_, ?_, ?_, ?_, ?_, ?_, ?_, ?_, ?_, ?_, ?_⟩
  · have e := slot1_split p
    rw [h1] at e
    exact e
  · have e := slot3_split p
    rw [h2] at e
    exact e
  · have e := slot5_split p
    rw [h3] at e
    exact e
  · have e := slot7_split p
    rw [hi1] at e
    exact e
  · have e := slot11_split p
    rw [hi2] at e
    exact e
  · have e := slot13_split p
    rw [h4] at e
    exact e
  · have e := slot15_split p
    rw [h5] at e
    exact e
  · have e := slot17_split p
    rw [h6] at e
    exact e
  · have e := slot21_split p
    rw [h7] at e
    exact e
  · have e := slot23_split p
    rw [hi2] at e
    exact e
  · have e := slot25_split p
    rw [hi3] at e
    exact e
  · have e := slot27_split p
    rw [hi4] at e
    exact e
  · have e := slot33_split p
    rw [h2] at e
    exact e

/-- C1 (witness): the amended statement applied to the concrete project
`projC1`, whose `sections` dict is present but empty and whose `images`
dict is absent, so every hypothesis holds by computation. -/
theorem c1_amended_missing_fields_witness :
    ((sectionsOf projC1).hero_title = none
      ∧ (sectionsOf projC1).hero_subtitle = none
      ∧ (sectionsOf projC1).hero_cta = none
      ∧ (sectionsOf projC1).story_title = none
      ∧ (sectionsOf projC1).story_body = none
      ∧ (sectionsOf projC1).craft_title = none
      ∧ (sectionsOf projC1).lookbook_title = none
      ∧ (imagesOf projC1).hero = none
      ∧ (imagesOf projC1).lifestyle = none
      ∧ (imagesOf projC1).flatlay = none
      ∧ (imagesOf projC1).closeup = none)
    ∧ (slotSplit projC1 1 "Zenview Eyewear"
      ∧ slotSplit projC1 3 "See Without Noise"
      ∧ slotSplit projC1 5 "Shop the Collection"
      ∧ slotSplit projC1 7 "https://placehold.co/1600x900?text=Zenview+Hero"
      ∧ slotSplit projC1 11 "https://placehold.co/1200x1400?text=Lifestyle"
      ∧ slotSplit projC1 13 "None"
      ∧ slotSplit projC1 15 "None"
      ∧ slotSplit projC1 17 "None"
      ∧ slotSplit projC1 21 "None"
      ∧ slotSplit projC1 23 "https://placehold.co/800x1000"
      ∧ slotSplit projC1 25 "https://placehold.co/1000x800"
      ∧ slotSplit projC1 27 "https://placehold.co/900x900"
      ∧ slotSplit projC1 33 "None") :=
  ⟨⟨rfl, rfl, rfl, rfl, rfl, rfl, rfl, rfl, rfl, rfl, rfl⟩,
   c1_amended_missing_fields projC1 rfl rfl rfl rfl rfl rfl rfl rfl rfl rfl rfl⟩

/-- C2 (code bug): for a well-formed project id that matches no stored
document, the body of `get_project` / `export_project_zip` raises
`HTTPException(404, "Project not found")`, but the surrounding broad
`except Exception` re-raises it as a 500 — so both endpoints answer 500,
not the 404 the spec states. -/
theorem c2_missing_project_returns_500 :
    get_project_try [] "507f1f77bcf86cd799439011" =
      .error (.http 404 "Project not found")
    ∧ get_project [] "507f1f77bcf86cd799439011" = 500
    ∧ export_project_zip_try [] "507f1f77bcf86cd799439011" =
      .error (.http 404 "Project not found")
    ∧ export_project_zip [] "507f1f77bcf86cd799439011" = 500 :=
  ⟨rfl, rfl, rfl, rfl⟩

/-- C3 (code bug): when the path id and the body id of a PUT disagree, the
handler body raises `HTTPException(400, "Mismatched ids")`, but the broad
`except Exception` converts it into a 500 answer; the stored document is
indeed left unchanged. -/
theorem c3_mismatched_ids_return_500 :
    update_project_try [("aaaaaaaaaaaaaaaaaaaaaaaa", storedDoc)]
        "aaaaaaaaaaaaaaaaaaaaaaaa" "bbbbbbbbbbbbbbbbbbbbbbbb" payloadDoc =
      .error (.http 400 "Mismatched ids")
    ∧ update_project [("aaaaaaaaaaaaaaaaaaaaaaaa", storedDoc)]
        "aaaaaaaaaaaaaaaaaaaaaaaa" "bbbbbbbbbbbbbbbbbbbbbbbb" payloadDoc =
      (500, [("aaaaaaaaaaaaaaaaaaaaaaaa", storedDoc)]) :=
  ⟨rfl, rfl⟩

/-- C4: the rendered page is exactly the part before the collections grid,
then one card per product of the catalog in list order, then the part
after; an empty catalog leaves the grid without cards; a card shows the
product's image URL — the fixed placeholder URL when the image is missing —
and the price rendered as `$ ` followed by the price's decimal form. -/
theorem c4_collections_grid (project : ProjectDoc) :
    buildHtml project =
      htmlBeforeGrid project ++
        (String.join ((productsOf project).map cardHtml) ++ htmlAfterGrid project)
    ∧ (productsOf project = [] →
        buildHtml project = htmlBeforeGrid project ++ htmlAfterGrid project)
    ∧ (∀ prod : ProductDoc, prod.image = none →
        ∃ a b : String, cardHtml prod =
          a ++ ("https://placehold.co/800x600?text=Frame" ++ b))
    ∧ (∀ prod : ProductDoc, ∀ url : String, prod.image = some url → url ≠ "" →
        ∃ a b : String, cardHtml prod = a ++ (url ++ b))
    ∧ (∀ prod : ProductDoc,
        ∃ a b : String, cardHtml prod = a ++ ("$ " ++ (pyFloat prod.price ++ b))) := by
  refine ⟨buildHtml_grid_split project, ?_, ?_, ?_, ?_⟩
  · intro h
    have hsplit := buildHtml_grid_split project
    rw [h, List.map_nil] at hsplit
    rw [hsplit]
    exact congrArg _ (String.empty_append _)
  · intro prod himg
    refine ⟨"<div class='card'><div class='img' style=\\\"background-image:url('",
      "')\\\"></div><div class='info'><div class='name'>" ++ pyStr prod.name ++
        "</div><div class='price'>$ " ++ pyFloat prod.price ++ "</div></div></div>", ?_⟩
    unfold cardHtml
    rw [himg]
    simp only [pyOr, str_append_assoc]
  · intro prod url himg hne
    refine ⟨"<div class='card'><div class='img' style=\\\"background-image:url('",
      "')\\\"></div><div class='info'><div class='name'>" ++ pyStr prod.name ++
        "</div><div class='price'>$ " ++ pyFloat prod.price ++ "</div></div></div>", ?_⟩
    unfold cardHtml
    rw [himg]
    simp only [pyOr, if_neg hne, str_append_assoc]
  · intro prod
    refine ⟨"<div class='card'><div class='img' style=\\\"background-image:url('" ++
      pyOr prod.image "https://placehold.co/800x600?text=Frame" ++
      "')\\\"></div><div class='info'><div class='name'>" ++ pyStr prod.name ++
      "</div><div class='price'>", "</div></div></div>", ?_⟩
    have hdollar : ("</div><div class='price'>$ " : String) =
        "</div><div class='price'>" ++ "$ " := rfl
    unfold cardHtml
    rw [hdollar]
    simp only [str_append_assoc]

/-- C4 (witness): the grid decomposition and the placeholder card applied
to the concrete project `proj420` and its single product, whose `image`
field is missing. -/
theorem c4_collections_grid_witness :
    prod420.image = none
    ∧ buildHtml proj420 =
        htmlBeforeGrid proj420 ++
          (String.join ((productsOf proj420).map cardHtml) ++ htmlAfterGrid proj420)
    ∧ ∃ a b : String, cardHtml prod420 =
        a ++ ("https://placehold.co/800x600?text=Frame" ++ b) :=
  ⟨rfl, (c4_collections_grid proj420).1,
    (c4_collections_grid proj420).2.2.1 prod420 rfl⟩

/-- C5: the rendered page is exactly the part before the testimonials
section, then one blockquote per entry of `testimonials` in list order —
each entry wrapped in the curly quotation marks U+201C and U+201D — then
the part after; the number of rendered blockquotes equals
`len(testimonials)`. -/
theorem c5_testimonials_section (project : ProjectDoc) :
    buildHtml project =
      htmlBeforeTestimonials project ++
        (String.join (((sectionsOf project).testimonials.getD []).map quoteHtml) ++
          htmlAfterTestimonials project)
    ∧ (((sectionsOf project).testimonials.getD []).map quoteHtml).length =
        ((sectionsOf project).testimonials.getD []).length
    ∧ ∀ t : String, quoteHtml t = "<blockquote>“" ++ (t ++ "”</blockquote>") :=
  ⟨buildHtml_testimonials_split project,
   List.length_map _ _,
   fun t => str_append_assoc "<blockquote>“" t "”</blockquote>"⟩

/-- C6: the produced CSS depends only on `theme.accent`: any two projects
with the same accent value produce identical CSS, and the stylesheet is the
`--accent` custom-property declaration holding exactly the accent string,
followed by the fixed remainder. -/
theorem c6_css_accent_only (p₁ p₂ : ProjectDoc) (h : accentOf p₁ = accentOf p₂) :
    buildCss p₁ = buildCss p₂
    ∧ buildCss p₁ = ":root\x7b--accent:" ++ (accentOf p₁ ++ cssTail) := by
  constructor
  · simp [buildCss, h]
  · exact str_append_assoc _ _ _

/-- C6 (witness): two concrete projects differing only in a non-accent
theme field (background white vs black), both with accent `#ABCDEF`:
their CSS agrees and carries `--accent:#ABCDEF`. -/
theorem c6_css_accent_only_witness :
    accentOf projA = accentOf projB
    ∧ (buildCss projA = buildCss projB
      ∧ buildCss projA = ":root\x7b--accent:" ++ ("#ABCDEF" ++ cssTail)) :=
  ⟨rfl, c6_css_accent_only projA projB rfl⟩

/-- C7: `build_export_bundle` is a pure function of the project value: it
is modelled with no state and no I/O, and its `(html, css, js)` result
depends only on the `theme`, `sections`, `products` and `images` fields it
reads — two invocations on projects equal in those fields return equal
triples. -/
theorem c7_bundle_pure (p₁ p₂ : ProjectDoc)
    (ht : p₁.theme = p₂.theme) (hs : p₁.sections = p₂.sections)
    (hp : p₁.products = p₂.products) (hi : p₁.images = p₂.images) :
    build_export_bundle p₁ = build_export_bundle p₂ := by
  simp [build_export_bundle, buildHtml, buildCss, htmlSegments, sectionsOf,
    productsOf, imagesOf, accentOf, themeOf, ht, hs, hp, hi]

/-- C7 (witness): two concrete projects differing only in `name` produce
the same bundle. -/
theorem c7_bundle_pure_witness :
    projName1.theme = projName2.theme
    ∧ build_export_bundle projName1 = build_export_bundle projName2 :=
  ⟨rfl, c7_bundle_pure projName1 projName2 rfl rfl rfl rfl⟩

/-- C8 (helper): a payload that passes pydantic validation has only
non-negative product prices. -/
theorem accepted_priceInv (payload : ProjectDoc)
    (hacc : projectAccepted payload = true) : priceInv payload := by
  intro prod hmem q hq
  have hall : productAccepted prod = true :=
    (List.all_eq_true.mp hacc) prod hmem
  unfold productAccepted at hall
  rw [Bool.and_eq_true, hq] at hall
  exact of_decide_eq_true hall.2

/-- C8: a project accepted through the schema-validated create/update
interfaces satisfies `price ≥ 0` for every embedded product, and both
mutating operations preserve that invariant of the stored collection. -/
theorem c8_price_invariant (store : Store) (h : storeInv store)
    (newId project_id payload_id : String) (payload : ProjectDoc) :
    (projectAccepted payload = true → priceInv payload)
    ∧ storeInv (create_project store newId payload).2
    ∧ storeInv (update_project_endpoint store project_id payload_id payload).2 := by
  refine ⟨accepted_priceInv payload, ?_, ?_⟩
  · unfold create_project
    by_cases hacc : projectAccepted payload = true
    · rw [if_pos hacc]
      intro e he
      rcases List.mem_append.mp he with h1 | h2
      · exact h e h1
      · have : e = (newId, payload) := List.mem_singleton.mp h2
        rw [this]
        exact accepted_priceInv payload hacc
    · rw [if_neg hacc]
      exact h
  · unfold update_project_endpoint update_project update_project_try
    by_cases hacc : projectAccepted payload = true
    · rw [if_pos hacc]
      by_cases hid : project_id ≠ payload_id
      · rw [if_pos hid]
        exact h
      · rw [if_neg hid]
        by_cases hvalid : ¬ isValidObjectId project_id
        · rw [if_pos hvalid]
          exact h
        · rw [if_neg hvalid]
          intro e he
          rcases List.mem_map.mp he with ⟨e₀, he₀, rfl⟩
          by_cases hmatch : (e₀.1 == project_id) = true
          · rw [if_pos hmatch]
            exact accepted_priceInv payload hacc
          · rw [if_neg hmatch]
            exact h e₀ he₀
    · rw [if_neg hacc]
      exact h

/-- C8 (witness): the invariant statement applied to the empty store and a
concrete accepted payload with one product priced 420. -/
theorem c8_price_invariant_witness :
    storeInv []
    ∧ ((projectAccepted payloadW = true → priceInv payloadW)
      ∧ storeInv (create_project [] "507f1f77bcf86cd799439011" payloadW).2
      ∧ storeInv (update_project_endpoint [] "507f1f77bcf86cd799439011"
          "507f1f77bcf86cd799439011" payloadW).2) :=
  ⟨fun e he => absurd he (List.not_mem_nil e),
   c8_price_invariant [] (fun e he => absurd he (List.not_mem_nil e))
     "507f1f77bcf86cd799439011" "507f1f77bcf86cd799439011"
     "507f1f77bcf86cd799439011" payloadW⟩

set_option maxRecDepth 4000 in
/-- C9: the page built for the project whose single product is priced
420.0 contains the substring `$ 420.0` — the float price is rendered with
its decimal part, neither truncated to `420` nor padded. -/
theorem c9_price_420_formatting :
    ∃ a b : String, buildHtml proj420 = a ++ ("$ 420.0" ++ b) := by
  refine ⟨htmlBeforeGrid proj420 ++
    "<div class='card'><div class='img' style=\\\"background-image:url('https://placehold.co/800x600?text=Frame')\\\"></div><div class='info'><div class='name'>Aero 01</div><div class='price'>",
    "</div></div></div>" ++ htmlAfterGrid proj420, ?_⟩
  rw [buildHtml_grid_split proj420]
  have hcard : String.join ((productsOf proj420).map cardHtml) =
      "<div class='card'><div class='img' style=\\\"background-image:url('https://placehold.co/800x600?text=Frame')\\\"></div><div class='info'><div class='name'>Aero 01</div><div class='price'>" ++
        ("$ 420.0" ++ "</div></div></div>") := by decide
  rw [hcard]
  simp only [str_append_assoc]

/-- C10: the image placeholder fallback is triggered by Python falsiness,
not only absence: a named image slot (hero, lifestyle, flatlay, closeup)
or a product image that is present but equal to the empty string renders
exactly as if the field were missing. -/
theorem c10_falsy_image_placeholder (p : ProjectDoc) (imgs : ImagesDoc)
    (prod : ProductDoc) :
    buildHtml { p with images := some { imgs with hero := some "" } } =
      buildHtml { p with images := some { imgs with hero := none } }
    ∧ buildHtml { p with images := some { imgs with lifestyle := some "" } } =
      buildHtml { p with images := some { imgs with lifestyle := none } }
    ∧ buildHtml { p with images := some { imgs with flatlay := some "" } } =
      buildHtml { p with images := some { imgs with flatlay := none } }
    ∧ buildHtml { p with images := some { imgs with closeup := some "" } } =
      buildHtml { p with images := some { imgs with closeup := none } }
    ∧ cardHtml { prod with image := some "" } = cardHtml { prod with image := none } :=
  ⟨rfl, rfl, rfl, rfl, rfl⟩

end Zenview



